import Mathlib

/-!
Verification development for the linux micro-controller supervisory runtime
(header src/linux/internal.h).  The repository ships only the header with
declarations for console.c, timer.c and watchdog.c; the bodies of those
translation units are modelled from the design specification where needed.
Machine time is represented by a struct-timespec embedding over Nat.
-/

/-- Nanoseconds per second, the normalisation base of struct timespec. -/
def NSEC_PER_SEC : Nat := 1000000000

/-- Shallow embedding of C struct timespec (time.h): seconds plus
nanoseconds.  A normalised value keeps tv_nsec below NSEC_PER_SEC. -/
structure timespec where
  tv_sec : Nat
  tv_nsec : Nat
deriving DecidableEq, Repr

/-- Total nanosecond count denoted by a timespec. -/
def timespec.toNanos (ts : timespec) : Nat :=
  ts.tv_sec * NSEC_PER_SEC + ts.tv_nsec

/-- Add a nanosecond duration to a timespec, carrying into tv_sec. -/
def timespec.addNanos (ts : timespec) (d : Nat) : timespec :=
  { tv_sec := ts.tv_sec + (ts.tv_nsec + d) / NSEC_PER_SEC
    tv_nsec := (ts.tv_nsec + d) % NSEC_PER_SEC }

theorem timespec.toNanos_addNanos (ts : timespec) (d : Nat) :
    (ts.addNanos d).toNanos = ts.toNanos + d := by
  have h := Nat.div_add_mod (ts.tv_nsec + d) NSEC_PER_SEC
  simp only [timespec.addNanos, timespec.toNanos, Nat.add_mul, NSEC_PER_SEC] at *
  omega

/-- Modelled from the spec: src/linux/timer.c is not under src/; internal.h
only declares timer_check_periodic.  Per the PeriodicTimer contract, the
check reads the current monotonic clock; if it is at or past the deadline it
reports elapsed and advances the deadline by exactly one period
(period-relative, never clock-relative); otherwise the deadline is
unchanged. -/
def check_elapsed (period : Nat) (now deadline : timespec) : Bool × timespec :=
  if deadline.toNanos ≤ now.toNanos then
    (true, deadline.addNanos period)
  else
    (false, deadline)

/-- Fold a sequence of periodic checks over a list of clock readings,
returning the final deadline together with the number of elapsed events
reported. -/
def run_checks (period : Nat) (deadline : timespec) : List timespec → timespec × Nat
  | [] => (deadline, 0)
  | now :: rest =>
    let r := check_elapsed period now deadline
    let res := run_checks period r.2 rest
    (res.1, (if r.1 then 1 else 0) + res.2)

/-- A clock trace advances monotonically (non-decreasing readings). -/
def clock_monotone : List timespec → Bool
  | [] => true
  | [_] => true
  | a :: b :: rest => decide (a.toNanos ≤ b.toNanos) && clock_monotone (b :: rest)

/-- Duration spanned by a trace of clock readings: last minus first. -/
def window_duration (nows : List timespec) : Nat :=
  match nows.head?, nows.getLast? with
  | some a, some b => b.toNanos - a.toNanos
  | _, _ => 0

/-- The windowed-count property asserted by the spec for check_elapsed call
sequences: the number of elapsed events over the window spanned by the calls
is within one of the window duration divided by the period. -/
def window_count_within_one (period : Nat) (start : timespec)
    (nows : List timespec) : Bool :=
  let cnt := (run_checks period start nows).2
  let ideal := window_duration nows / period
  decide (cnt ≤ ideal + 1) && decide (ideal ≤ cnt + 1)

/-- An error record: origin label plus the failing status code, the payload
handed to the diagnostic sink by the error reporter. -/
structure ErrorRecord where
  origin : String
  code : Int
deriving DecidableEq, Repr

/-- Modelled from the spec: src/linux/console.c is not under src/; internal.h
only declares report_errno.  The reporter packages the origin tag and status
code into the diagnostic record it emits; it never fails itself. -/
def report_errno (whereTag : String) (rc : Int) : ErrorRecord :=
  { origin := whereTag, code := rc }

/-- State of an open file descriptor as the console component sees it:
whether the descriptor is valid (open) and whether O_NONBLOCK is set. -/
structure FdState where
  valid : Bool
  nonBlocking : Bool
deriving DecidableEq, Repr

/-- Modelled from the spec: src/linux/console.c is not under src/; internal.h
only declares set_non_blocking.  Configuring an already-non-blocking handle
is a no-op success; otherwise the O_NONBLOCK flag is set, which can fail at
the operating-system level (fcntlFails models that environment outcome), and
a failure is reported as a DeviceError. -/
def set_non_blocking (fcntlFails : Bool) (h : FdState) : Except ErrorRecord FdState :=
  if h.valid = false then
    Except.error (report_errno "fcntl" (-9))
  else if h.nonBlocking then
    Except.ok h
  else if fcntlFails then
    Except.error (report_errno "fcntl" (-1))
  else
    Except.ok { h with nonBlocking := true }

/-- Environment outcomes surrounding console setup: what the operating
system answers to the open call (an errno on failure, a descriptor on
success) and whether the subsequent mode configuration fails. -/
structure ConsoleEnv where
  openResult : Except Int Nat
  fcntlFails : Bool
deriving Repr

/-- Modelled from the spec: src/linux/console.c is not under src/; internal.h
only declares console_setup.  Setup opens the named device and applies
non-blocking mode; on open failure or mode-configuration failure it reports
via the error reporter and fails with a DeviceError escalated to the caller.
The first component collects the diagnostic records emitted. -/
def console_setup (env : ConsoleEnv) : List ErrorRecord × Except ErrorRecord FdState :=
  match env.openResult with
  | Except.error e =>
    let r := report_errno "open" e
    ([r], Except.error r)
  | Except.ok _fd =>
    match set_non_blocking env.fcntlFails { valid := true, nonBlocking := false } with
    | Except.error r => ([r], Except.error r)
    | Except.ok h => ([], Except.ok h)

/-- State of the console device as seen by a read: whether the device has
been closed, and the bytes currently pending. -/
structure ConsoleDevice where
  closed : Bool
  pending : List Nat
deriving DecidableEq, Repr

/-- Result of a non-blocking console read: a (possibly empty) byte sequence,
or a fault when the device is closed. -/
inductive ReadResult
  | bytes (bs : List Nat)
  | fault (r : ErrorRecord)
deriving DecidableEq, Repr

/-- Modelled from the spec: src/linux/console.c is not under src/.  The
read primitive never suspends: it returns whatever bytes are currently
available (the empty sequence when none are pending) and surfaces a closed
device as a fault rather than as an empty result. -/
def read_available (dev : ConsoleDevice) : ReadResult :=
  if dev.closed then
    ReadResult.fault (report_errno "read" (-5))
  else
    ReadResult.bytes dev.pending

/-- Observable actions of one supervisory-loop iteration, in the order they
are performed. -/
inductive Event
  | drained (bs : List Nat)
  | stepped
  | refreshed
  | devErrReported (r : ErrorRecord)
  | fatalReported
  | terminated
  | slept
deriving DecidableEq, Repr

/-- Recognise a DeviceError diagnostic event. -/
def Event.isDevErr : Event → Bool
  | Event.devErrReported _ => true
  | _ => false

/-- Recognise a FatalFault diagnostic event. -/
def Event.isFatal : Event → Bool
  | Event.fatalReported => true
  | _ => false

/-- Inputs one loop iteration receives from its environment: the console
bytes currently available, the monotonic clock reading, whether the
caller-supplied control step signals an unrecoverable fault, and whether a
watchdog refresh attempt would fail. -/
structure IterInput where
  pending : List Nat
  now : timespec
  stepFatal : Bool
  refreshFails : Bool
deriving Repr

/-- Supervisory-loop state: the periodic timer's deadline and whether the
loop is still running. -/
structure LoopState where
  deadline : timespec
  running : Bool
deriving DecidableEq, Repr

/-- Modelled from the spec: the SupervisoryLoop orchestration contract has
no translation unit under src/.  One iteration drains the console, invokes
the control step, and, when the control step signals an unrecoverable
fault, reports a FatalFault and terminates without any watchdog refresh.
Otherwise it asks the periodic timer whether a period elapsed and only then
invokes the watchdog refresh; a refresh failure is reported as a
DeviceError but does not stop the loop.  With no console data pending the
iteration ends in a bounded idle sleep. -/
def loop_iter (period : Nat) (inp : IterInput) (st : LoopState) : LoopState × List Event :=
  if st.running = false then
    (st, [])
  else if inp.stepFatal then
    ({ st with running := false },
      [Event.drained inp.pending, Event.stepped, Event.fatalReported, Event.terminated])
  else
    let r := check_elapsed period inp.now st.deadline
    let refreshEvs :=
      if r.1 then
        Event.refreshed ::
          (if inp.refreshFails then [Event.devErrReported (report_errno "watchdog" (-1))] else [])
      else []
    let sleepEvs := if inp.pending.isEmpty then [Event.slept] else []
    ({ st with deadline := r.2 },
      Event.drained inp.pending :: Event.stepped :: (refreshEvs ++ sleepEvs))

/-- Embedding of the C parameter types appearing in internal.h. -/
inductive CType
  | cInt
  | cVoid
  | cCharPtr
  | cTimespec
  | cTimespecPtr
deriving DecidableEq, Repr

/-- A C function declaration: name, return type, parameter types. -/
structure CDecl where
  name : String
  ret : CType
  args : List CType
deriving DecidableEq, Repr

/-- The declarations of src/linux/internal.h, in source order. -/
def internal_h_decls : List CDecl :=
  [{ name := "report_errno", ret := CType.cVoid, args := [CType.cCharPtr, CType.cInt] },
   { name := "set_non_blocking", ret := CType.cInt, args := [CType.cInt] },
   { name := "console_setup", ret := CType.cInt, args := [CType.cCharPtr] },
   { name := "console_sleep", ret := CType.cVoid, args := [CType.cTimespec] },
   { name := "timer_check_periodic", ret := CType.cInt, args := [CType.cTimespecPtr] },
   { name := "watchdog_setup", ret := CType.cInt, args := [] }]

/-- A declared operation can mutate a caller-visible timespec exactly when
it takes a pointer to one. -/
def mutatesCallerTimespec (d : CDecl) : Bool :=
  d.args.contains CType.cTimespecPtr

/-- Whenever the loop is running, the control step has not signalled a
fatal fault, and the periodic timer reports an elapsed period, the
iteration attempts the watchdog refresh. -/
theorem loop_iter_refresh_attempted (period : Nat) (inp : IterInput) (st : LoopState)
    (hrun : st.running = true) (hfatal : inp.stepFatal = false)
    (helapsed : (check_elapsed period inp.now st.deadline).1 = true) :
    Event.refreshed ∈ (loop_iter period inp st).2 := by
  simp [loop_iter, hrun, hfatal, helapsed]

/-- C1: a periodic timer check with deadline D and period P returns
elapsed = true and new deadline exactly D + P when the monotonic clock is
at or past D, and otherwise returns elapsed = false with the deadline
unchanged. -/
theorem c1_timer_check_periodic_correct (period : Nat) (now deadline : timespec) :
    (deadline.toNanos ≤ now.toNanos →
      check_elapsed period now deadline = (true, deadline.addNanos period) ∧
      (check_elapsed period now deadline).2.toNanos = deadline.toNanos + period) ∧
    (now.toNanos < deadline.toNanos →
      check_elapsed period now deadline = (false, deadline)) := by
  constructor
  · intro h
    simp [check_elapsed, h, timespec.toNanos_addNanos]
  · intro h
    simp [check_elapsed, Nat.not_le.mpr h]

/-- Witness for C1 at concrete inputs, one per branch. -/
theorem c1_timer_check_periodic_correct_witness :
    check_elapsed 7 ⟨2, 0⟩ ⟨1, 999999999⟩ = (true, timespec.addNanos ⟨1, 999999999⟩ 7) ∧
    check_elapsed 7 ⟨0, 0⟩ ⟨1, 0⟩ = (false, ⟨1, 0⟩) :=
  ⟨((c1_timer_check_periodic_correct 7 ⟨2, 0⟩ ⟨1, 999999999⟩).1 (by decide)).1,
   (c1_timer_check_periodic_correct 7 ⟨0, 0⟩ ⟨1, 0⟩).2 (by decide)⟩

/-- C2: even when the clock has moved at least ten periods past the
deadline, a single check reports exactly one elapsed event and advances the
deadline by exactly one period, to deadline + P and not to now + P. -/
theorem c2_single_elapsed_per_check (period : Nat) (now deadline : timespec)
    (hp : 0 < period)
    (hstall : deadline.toNanos + 10 * period ≤ now.toNanos) :
    (check_elapsed period now deadline).1 = true ∧
    (check_elapsed period now deadline).2.toNanos = deadline.toNanos + period ∧
    (check_elapsed period now deadline).2.toNanos ≠ now.toNanos + period := by
  have hle : deadline.toNanos ≤ now.toNanos := by omega
  refine ⟨by simp [check_elapsed, hle], by simp [check_elapsed, hle, timespec.toNanos_addNanos], ?_⟩
  simp only [check_elapsed, if_pos hle, timespec.toNanos_addNanos]
  omega

/-- Witness for C2: a clock exactly ten periods past the deadline. -/
theorem c2_single_elapsed_per_check_witness :
    (check_elapsed 5 ⟨0, 50⟩ ⟨0, 0⟩).1 = true ∧
    (check_elapsed 5 ⟨0, 50⟩ ⟨0, 0⟩).2.toNanos = timespec.toNanos ⟨0, 0⟩ + 5 ∧
    (check_elapsed 5 ⟨0, 50⟩ ⟨0, 0⟩).2.toNanos ≠ timespec.toNanos ⟨0, 50⟩ + 5 :=
  c2_single_elapsed_per_check 5 ⟨0, 50⟩ ⟨0, 0⟩ (by decide) (by decide)

/-- C3 counterexample: four monotone clock readings far past the start
deadline produce four elapsed events inside a window of duration 3 with
period 10, so the count is not floor(T / P) plus or minus one. -/
theorem c3_window_count_counterexample :
    clock_monotone [⟨0, 100⟩, ⟨0, 101⟩, ⟨0, 102⟩, ⟨0, 103⟩] = true ∧
    (run_checks 10 ⟨0, 0⟩ [⟨0, 100⟩, ⟨0, 101⟩, ⟨0, 102⟩, ⟨0, 103⟩]).2 = 4 ∧
    window_count_within_one 10 ⟨0, 0⟩ [⟨0, 100⟩, ⟨0, 101⟩, ⟨0, 102⟩, ⟨0, 103⟩] = false := by
  decide

/-- C3 amended: after any sequence of checks the deadline equals
start + k * P where k is exactly the number of elapsed events reported, so
the deadline sequence stays on the ideal grid and accumulates no drift. -/
theorem c3_deadline_on_ideal_grid (period : Nat) (start : timespec) (nows : List timespec) :
    (run_checks period start nows).1.toNanos =
      start.toNanos + (run_checks period start nows).2 * period := by
  induction nows generalizing start with
  | nil => simp [run_checks]
  | cons now rest ih =>
    simp only [run_checks]
    by_cases h : start.toNanos ≤ now.toNanos
    · simp only [check_elapsed, if_pos h, if_true]
      rw [ih (start.addNanos period), timespec.toNanos_addNanos]
      ring
    · simp only [check_elapsed, if_neg h]
      rw [ih start]
      simp

/-- C4: set_non_blocking is idempotent: a successful configuration yields a
non-blocking handle, configuring that handle again is a no-op success, and
an already-non-blocking handle is returned unchanged. -/
theorem c4_set_non_blocking_idempotent (fcntlFails : Bool) (h h' : FdState)
    (hok : set_non_blocking fcntlFails h = Except.ok h') :
    h'.nonBlocking = true ∧
    set_non_blocking fcntlFails h' = Except.ok h' ∧
    (h.nonBlocking = true → h' = h) := by
  rcases h with ⟨v, nb⟩
  cases v <;> cases nb <;> cases fcntlFails <;>
    simp_all [set_non_blocking] <;> subst hok <;> simp [set_non_blocking]

/-- Witness for C4: configuring a fresh blocking handle succeeds and the
result is a fixed point of set_non_blocking. -/
theorem c4_set_non_blocking_idempotent_witness :
    FdState.nonBlocking ⟨true, true⟩ = true ∧
    set_non_blocking false ⟨true, true⟩ = Except.ok ⟨true, true⟩ ∧
    (FdState.nonBlocking ⟨true, false⟩ = true → (⟨true, true⟩ : FdState) = ⟨true, false⟩) :=
  c4_set_non_blocking_idempotent false ⟨true, false⟩ ⟨true, true⟩ (by rfl)

/-- C5: console setup either returns a live non-blocking handle with no
diagnostics, or fails with a DeviceError that is both reported exactly once
through the error reporter and escalated to the caller; a failure is never
silent and never yields a handle. -/
theorem c5_console_setup_reports_or_handle (env : ConsoleEnv) :
    (∃ h, (console_setup env).2 = Except.ok h ∧ h.valid = true ∧ h.nonBlocking = true ∧
      (console_setup env).1 = []) ∨
    (∃ r, (console_setup env).2 = Except.error r ∧ (console_setup env).1 = [r]) := by
  rcases env with ⟨op, ff⟩
  cases op with
  | error e => exact Or.inr ⟨report_errno "open" e, rfl, rfl⟩
  | ok fd =>
    cases ff
    · exact Or.inl ⟨⟨true, true⟩, rfl, rfl, rfl, rfl⟩
    · exact Or.inr ⟨report_errno "fcntl" (-1), rfl, rfl⟩

/-- C6: in a running iteration the event order is strictly drain, then
step, then the rest; a watchdog refresh can only appear after the control
step and appears exactly when the step was not fatal and the periodic
timer reported an elapsed period. -/
theorem c6_iteration_order_strict (period : Nat) (inp : IterInput) (st : LoopState)
    (hrun : st.running = true) :
    ∃ rest,
      (loop_iter period inp st).2 = Event.drained inp.pending :: Event.stepped :: rest ∧
      (Event.refreshed ∈ rest ↔
        inp.stepFatal = false ∧ (check_elapsed period inp.now st.deadline).1 = true) := by
  rcases inp with ⟨pend, now, fatal, rfail⟩
  cases fatal
  · cases hr : (check_elapsed period now st.deadline).1
    · refine ⟨(if pend.isEmpty then [Event.slept] else []), ?_, ?_⟩
      · simp [loop_iter, hrun, hr]
      · cases hpe : pend.isEmpty <;> simp [hr]
    · refine ⟨Event.refreshed ::
          (if rfail then [Event.devErrReported (report_errno "watchdog" (-1))] else []) ++
            (if pend.isEmpty then [Event.slept] else []), ?_, ?_⟩
      · simp [loop_iter, hrun, hr]
      · simp [hr]
  · refine ⟨[Event.fatalReported, Event.terminated], ?_, ?_⟩
    · simp [loop_iter, hrun]
    · simp

/-- Witness for C6: a running iteration with console data, no fatal fault
and an elapsed period. -/
theorem c6_iteration_order_strict_witness :
    ∃ rest,
      (loop_iter 10 ⟨[1], ⟨0, 5⟩, false, false⟩ ⟨⟨0, 0⟩, true⟩).2 =
        Event.drained [1] :: Event.stepped :: rest ∧
      (Event.refreshed ∈ rest ↔
        false = false ∧ (check_elapsed 10 ⟨0, 5⟩ ⟨0, 0⟩).1 = true) :=
  c6_iteration_order_strict 10 ⟨[1], ⟨0, 5⟩, false, false⟩ ⟨⟨0, 0⟩, true⟩ rfl

/-- C7: a watchdog refresh failure is not fatal: the iteration emits
exactly one DeviceError diagnostic, the loop keeps running, and any later
running iteration without a fatal step whose period has elapsed attempts
the refresh again. -/
theorem c7_refresh_failure_not_fatal (period : Nat) (inp : IterInput) (st : LoopState)
    (hrun : st.running = true)
    (hfatal : inp.stepFatal = false)
    (helapsed : (check_elapsed period inp.now st.deadline).1 = true)
    (hfail : inp.refreshFails = true) :
    ((loop_iter period inp st).2.filter Event.isDevErr).length = 1 ∧
    (loop_iter period inp st).1.running = true ∧
    (∀ inp2 : IterInput, inp2.stepFatal = false →
      (check_elapsed period inp2.now (loop_iter period inp st).1.deadline).1 = true →
      Event.refreshed ∈ (loop_iter period inp2 (loop_iter period inp st).1).2) := by
  refine ⟨?_, ?_, ?_⟩
  · cases hpe : inp.pending.isEmpty <;>
      simp [loop_iter, hrun, hfatal, helapsed, hfail, hpe, Event.isDevErr]
  · simp [loop_iter, hrun, hfatal, helapsed, hfail]
  · intro inp2 h2fatal h2elapsed
    refine loop_iter_refresh_attempted period inp2 _ ?_ h2fatal h2elapsed
    simp [loop_iter, hrun, hfatal, helapsed, hfail]

/-- Witness for C7: an elapsed cycle whose refresh fails, followed by a
universally quantified retry guarantee. -/
theorem c7_refresh_failure_not_fatal_witness :
    ((loop_iter 10 ⟨[], ⟨0, 5⟩, false, true⟩ ⟨⟨0, 0⟩, true⟩).2.filter Event.isDevErr).length = 1 ∧
    (loop_iter 10 ⟨[], ⟨0, 5⟩, false, true⟩ ⟨⟨0, 0⟩, true⟩).1.running = true ∧
    (∀ inp2 : IterInput, inp2.stepFatal = false →
      (check_elapsed 10 inp2.now
        (loop_iter 10 ⟨[], ⟨0, 5⟩, false, true⟩ ⟨⟨0, 0⟩, true⟩).1.deadline).1 = true →
      Event.refreshed ∈
        (loop_iter 10 inp2 (loop_iter 10 ⟨[], ⟨0, 5⟩, false, true⟩ ⟨⟨0, 0⟩, true⟩).1).2) :=
  c7_refresh_failure_not_fatal 10 ⟨[], ⟨0, 5⟩, false, true⟩ ⟨⟨0, 0⟩, true⟩ rfl rfl (by decide) rfl

/-- C8: when the control step signals an unrecoverable fault, the
iteration emits exactly one FatalFault diagnostic, performs no watchdog
refresh, and the loop terminates. -/
theorem c8_fatal_terminates_without_refresh (period : Nat) (inp : IterInput) (st : LoopState)
    (hrun : st.running = true) (hfatal : inp.stepFatal = true) :
    ((loop_iter period inp st).2.filter Event.isFatal).length = 1 ∧
    Event.refreshed ∉ (loop_iter period inp st).2 ∧
    (loop_iter period inp st).1.running = false := by
  simp [loop_iter, hrun, hfatal, Event.isFatal]

/-- Witness for C8: a fatal control step in a running iteration. -/
theorem c8_fatal_terminates_without_refresh_witness :
    ((loop_iter 10 ⟨[3], ⟨0, 5⟩, true, false⟩ ⟨⟨0, 0⟩, true⟩).2.filter Event.isFatal).length = 1 ∧
    Event.refreshed ∉ (loop_iter 10 ⟨[3], ⟨0, 5⟩, true, false⟩ ⟨⟨0, 0⟩, true⟩).2 ∧
    (loop_iter 10 ⟨[3], ⟨0, 5⟩, true, false⟩ ⟨⟨0, 0⟩, true⟩).1.running = false :=
  c8_fatal_terminates_without_refresh 10 ⟨[3], ⟨0, 5⟩, true, false⟩ ⟨⟨0, 0⟩, true⟩ rfl rfl

/-- C9: a console read never suspends: on an open device it immediately
returns the pending bytes, in particular the empty sequence when nothing is
pending, while a closed device surfaces as a fault rather than as an empty
result. -/
theorem c9_read_available_nonblocking (dev : ConsoleDevice) :
    (dev.closed = false → read_available dev = ReadResult.bytes dev.pending) ∧
    (dev.closed = false → dev.pending = [] → read_available dev = ReadResult.bytes []) ∧
    (dev.closed = true → read_available dev = ReadResult.fault (report_errno "read" (-5))) := by
  rcases dev with ⟨c, pend⟩
  cases c <;> simp [read_available]

/-- Witness for C9: an open device with no pending data returns the empty
sequence and a closed device returns a fault. -/
theorem c9_read_available_nonblocking_witness :
    read_available ⟨false, []⟩ = ReadResult.bytes [] ∧
    read_available ⟨true, [7]⟩ = ReadResult.fault (report_errno "read" (-5)) :=
  ⟨(c9_read_available_nonblocking ⟨false, []⟩).2.1 rfl rfl,
   (c9_read_available_nonblocking ⟨true, [7]⟩).2.2 rfl⟩

/-- C10: in the declared interface of internal.h the only operation taking
a pointer to a timespec, and hence the only one able to mutate a
caller-visible timespec, is timer_check_periodic; console_sleep receives
its timespec duration by value. -/
theorem c10_only_timer_mutates_timespec :
    (internal_h_decls.all fun d =>
      mutatesCallerTimespec d == decide (d.name = "timer_check_periodic")) = true ∧
    ({ name := "console_sleep", ret := CType.cVoid, args := [CType.cTimespec] } : CDecl) ∈
      internal_h_decls := by
  constructor
  · rfl
  · simp [internal_h_decls]
